import Mathlib

/-!
Shallow embedding of `comprehensive_solution.py` and `fix_and_verify_openbb.py`
(zsfxu/stock-data-solutions), together with theorems checking the repository's
specification against the code.
-/

/-- State of the shared provider client's header-injection function
`yf.utils.get`.  `original` is the function as shipped by the library;
`custom g` is the wrapper `custom_get` built in `fetch_data`, closing over
the function `g` that was current when the wrapper was installed
(`original_get = self.yf.utils.get`). -/
inductive GetFun where
  | original : GetFun
  | custom : GetFun → GetFun
deriving DecidableEq, Repr

/-- Outcome of one `self.yf.download(...)` call: either a returned data frame
(modelled as its list of rows) or a raised exception. -/
inductive DownloadOutcome where
  | frame : List Nat → DownloadOutcome
  | raises : DownloadOutcome
deriving DecidableEq, Repr

/-- Observable trace of one `fetch_data` call: the returned value
(`None` is `none`, a data frame is `some rows`), the final state of
`yf.utils.get`, the number of download attempts made, and the list of
back-off sleeps performed (in seconds, in order). -/
structure FetchTrace where
  result : Option (List Nat)
  finalGet : GetFun
  attempts : Nat
  sleeps : List Nat
deriving DecidableEq, Repr

/-- The back-off delay computed at `comprehensive_solution.py:82`:
`delay = min(2 ** attempt, max_delay)`. -/
def backoffDelay (attempt maxDelay : Nat) : Nat :=
  min (2 ^ attempt) maxDelay

/-- The retry loop of `SimpleStockDataTool.fetch_data`
(`comprehensive_solution.py:44-87`).  `remaining` is the list of attempt
indices still to run (`range(retries)` at the top call), `g` the current
state of `yf.utils.get`.  Each iteration saves `original_get := g`,
installs `custom g`, then calls download:
* download returns a frame: the original is restored (`yf.utils.get =
  original_get`), then a non-empty frame is returned, an empty frame
  yields `None`;
* download raises: the wrapper is NOT removed (there is no
  `try/finally`); on the last attempt the loop returns `None`, otherwise
  it sleeps `min(2 ** attempt, max_delay)` seconds and retries. -/
def fetchGo (outcome : Nat → DownloadOutcome) (maxDelay : Nat) :
    GetFun → List Nat → FetchTrace
  | g, [] => ⟨none, g, 0, []⟩
  | g, a :: rest =>
    match outcome a with
    | .frame rows =>
        if !rows.isEmpty then ⟨some rows, g, 1, []⟩
        else ⟨none, g, 1, []⟩
    | .raises =>
        if rest.isEmpty then ⟨none, GetFun.custom g, 1, []⟩
        else
          let d := backoffDelay a maxDelay
          let t := fetchGo outcome maxDelay (GetFun.custom g) rest
          ⟨t.result, t.finalGet, t.attempts + 1, d :: t.sleeps⟩

/-- `SimpleStockDataTool.fetch_data` (`comprehensive_solution.py:36-87`).
`yfAvailable` models `self.yf is not None`; when the provider handle is
`None` the function returns `None` before the loop.  `g0` is the state of
`yf.utils.get` on entry. -/
def fetch_data (yfAvailable : Bool) (outcome : Nat → DownloadOutcome)
    (retries maxDelay : Nat) (g0 : GetFun) : FetchTrace :=
  if yfAvailable = false then ⟨none, g0, 0, []⟩
  else fetchGo outcome maxDelay g0 (List.range retries)

example :
    fetch_data true (fun _ => .raises) 3 10 .original
      = ⟨none, .custom (.custom (.custom .original)), 3, [1, 2]⟩ := by
  decide

example :
    fetch_data true (fun a => if a = 0 then .raises else .frame [5]) 3 10 .original
      = ⟨some [5], .custom .original, 2, [1]⟩ := by
  decide

example :
    fetch_data true (fun _ => .frame []) 3 10 .original
      = ⟨none, .original, 1, []⟩ := by
  decide

/-- A tabular data frame as `manual_import` sees it: its row-key (index)
column name and its remaining column names. -/
structure CsvFrame where
  index : String
  cols : List String
deriving DecidableEq, Repr

/-- Environment of one `manual_import` call: whether the file exists, and
what each of the two `pd.read_csv` strategies would do (return a frame or
raise). -/
structure ImportWorld where
  fileExists : Bool
  readCsvIndexed : Except String CsvFrame
  readCsvPlain : Except String CsvFrame

/-- `data.set_index('Date', inplace=True)` at
`comprehensive_solution.py:106`: the `Date` column becomes the row key and
leaves the column list. -/
def setIndexDate (f : CsvFrame) : CsvFrame :=
  { index := "Date", cols := f.cols.filter (fun c => c ≠ "Date") }

/-- Observable trace of one `manual_import` call. -/
structure ImportTrace where
  result : Option CsvFrame
  primaryTried : Bool
  secondaryTried : Bool
deriving DecidableEq, Repr

/-- `SimpleStockDataTool.manual_import` (`comprehensive_solution.py:89-111`).
A missing file returns `None` with no parse attempt.  Otherwise the primary
strategy `pd.read_csv(file_path, index_col=0, parse_dates=True)` runs; if
it raises, the secondary strategy `pd.read_csv(file_path,
parse_dates=['Date'])` runs, promoting a `Date` column to the row key when
present; if that also raises, `None` is returned. -/
def manual_import (w : ImportWorld) : ImportTrace :=
  if w.fileExists = false then ⟨none, false, false⟩
  else
    match w.readCsvIndexed with
    | .ok data => ⟨some data, true, false⟩
    | .error _ =>
      match w.readCsvPlain with
      | .ok data =>
          if "Date" ∈ data.cols then ⟨some (setIndexDate data), true, true⟩
          else ⟨some data, true, true⟩
      | .error _ => ⟨none, true, true⟩

/-- Python's `str.startswith`: the characters of `p` are a prefix of the
characters of `s`. -/
def strStartsWith (s p : String) : Bool :=
  p.data.isPrefixOf s.data

example : strStartsWith "4.4.0" "4." = true := by decide
example : strStartsWith "44.0" "4." = false := by decide
example : strStartsWith "未知" "1." = false := by decide

/-- `check_installed_packages` (`fix_and_verify_openbb.py:21-72`), its
version-consistency part.  The `installed` dict built from `pip show` is
modelled as an association list package ↦ version.  The function returns
`(False, installed)` exactly when `openbb` is installed, its version starts
with `'4.'`, and `installed.get('openbb-core', '未知')` does not start with
`'1.'`; otherwise `(True, installed)`. -/
def check_installed_packages (installed : List (String × String)) :
    Bool × List (String × String) :=
  match List.lookup "openbb" installed with
  | none => (true, installed)
  | some v =>
    let core_version := (List.lookup "openbb-core" installed).getD "未知"
    if strStartsWith v "4." && !strStartsWith core_version "1." then
      (false, installed)
    else
      (true, installed)

/-- The three caller-distinguishable verdicts of the consistency check. -/
inductive Verdict where
  | notInstalled
  | mismatched
  | compatible
deriving DecidableEq, Repr

/-- How the caller (`main`, `fix_and_verify_openbb.py:164-178`) reads the
pair returned by `check_installed_packages`: the anchor `openbb` missing
from the returned dict is "not installed", a `False` flag is "mismatched",
and otherwise the check passed. -/
def verdictOf (installed : List (String × String)) : Verdict :=
  let r := check_installed_packages installed
  if List.lookup "openbb" r.2 = none then .notInstalled
  else if r.1 then .compatible
  else .mismatched

example : verdictOf [] = .notInstalled := by decide
example : verdictOf [("openbb", "4.4.0"), ("openbb-core", "1.2.0")] = .compatible := by
  decide
example : verdictOf [("openbb", "4.4.0"), ("openbb-core", "0.9.0")] = .mismatched := by
  decide
example : verdictOf [("openbb", "4.4.0")] = .mismatched := by decide
example : verdictOf [("openbb", "3.2.0"), ("openbb-core", "0.9.0")] = .compatible := by
  decide

/-- The fixed set of components uninstalled by the reconciliation
transaction (`comprehensive_solution.py:180-189`, and the identical list
`openbb_packages` at `fix_and_verify_openbb.py:83-92`). -/
def packagesToUninstall : List String :=
  ["openbb", "openbb-core", "openbb-equity", "openbb-yfinance",
   "openbb-charting", "openbb-crypto", "openbb-economy",
   "openbb-forecast", "openbb-index", "openbb-macro",
   "openbb-news", "openbb-options", "openbb-patterns",
   "openbb-politics", "openbb-portfolio", "openbb-screener",
   "openbb-sectors", "openbb-stocks", "openbb-surveillance",
   "openbb-terms", "openbb-time", "openbb-treasury",
   "openbb-vendor", "openbb-world"]

/-- Environment of one reconciliation run: whether the `pip uninstall`
subprocess call raises for a given package, and whether the single pinned
`pip install openbb[all]==4.4.0` call fails (raises
`CalledProcessError` under `check=True`). -/
structure PipWorld where
  uninstallRaises : String → Bool
  installRaises : Bool

/-- The uninstall loop (`comprehensive_solution.py:192-198`,
`fix_and_verify_openbb.py:95-104`): each package in the fixed set is
attempted in order; an exception from an attempt is caught by the
`try/except` inside the loop (logged only), so the loop always continues
to the next package.  The trace records, per package, whether its
uninstall attempt succeeded. -/
def uninstallLoop (w : PipWorld) : List (String × Bool) :=
  packagesToUninstall.map (fun pkg => (pkg, !w.uninstallRaises pkg))

/-- `clean_install_openbb` (`comprehensive_solution.py:175-211`): run the
uninstall loop, then `pip install 'openbb[all]==4.4.0'` with `check=True`;
return `False` exactly when that install raises, else `True`.  The first
component is the trace of uninstall attempts. -/
def clean_install_openbb (w : PipWorld) : List (String × Bool) × Bool :=
  let attempts := uninstallLoop w
  if w.installRaises then (attempts, false) else (attempts, true)

/-- `reinstall_openbb` (`fix_and_verify_openbb.py:75-118`): same
transaction shape as `clean_install_openbb` — best-effort uninstall loop
over the same package set, then the single pinned install (with
`--no-cache-dir`), whose failure alone makes the function return
`False`. -/
def reinstall_openbb (w : PipWorld) : List (String × Bool) × Bool :=
  let attempts := uninstallLoop w
  if w.installRaises then (attempts, false) else (attempts, true)

/-- The installed-package state of the Python environment the transaction
mutates through pip: each package name maps to its installed version, if
any. -/
def PipState : Type := String → Option String

/-- Effect of `pip uninstall -y pkg` on the installed state: the package
is removed if present, and nothing else changes (a no-op when absent). -/
def pipUninstall (s : PipState) (pkg : String) : PipState :=
  fun q => if q = pkg then none else s q

/-- The uninstall phase of the transaction as a state transformer:
`pip uninstall -y` applied to every package of the fixed set in order. -/
def uninstallPhase (s : PipState) : PipState :=
  packagesToUninstall.foldl pipUninstall s

/-- Effect of the pinned `pip install openbb[all]==4.4.0` on the installed
state: a fixed list `deps` of (package, version) pairs — the pinned target
and its resolved extras — is installed, each entry overwriting any
previous version of that package. -/
def pipInstall (deps : List (String × String)) (s : PipState) : PipState :=
  deps.foldl (fun acc kv => fun q => if q = kv.1 then some kv.2 else acc q) s

/-- The reconciliation transaction's effect on the installed state
(`clean_install_openbb` / `reinstall_openbb` seen through pip): the
uninstall phase always runs to completion; when the pinned install
succeeds the target set `deps` is installed and the transaction reports
`true`, otherwise the state is left as the uninstall phase produced it
and the transaction reports `false`. -/
def openbbTransaction (deps : List (String × String)) (installOk : Bool)
    (s : PipState) : PipState × Bool :=
  let s1 := uninstallPhase s
  if installOk then (pipInstall deps s1, true) else (s1, false)

/-! Helper lemmas about the fetch loop. -/

theorem fetchGo_attempts_le (outcome : Nat → DownloadOutcome) (m : Nat) :
    ∀ (l : List Nat) (g : GetFun), (fetchGo outcome m g l).attempts ≤ l.length := by
  intro l
  induction l with
  | nil => intro g; simp [fetchGo]
  | cons a rest ih =>
    intro g
    simp only [fetchGo]
    cases outcome a with
    | frame rows =>
      cases rows with
      | nil => simp
      | cons r rs => simp
    | raises =>
      cases rest with
      | nil => simp
      | cons b rest2 =>
        simpa [List.length_cons] using Nat.succ_le_succ (ih (GetFun.custom g))

theorem fetchGo_result_ne_nil (outcome : Nat → DownloadOutcome) (m : Nat) :
    ∀ (l : List Nat) (g : GetFun), (fetchGo outcome m g l).result ≠ some [] := by
  intro l
  induction l with
  | nil => intro g; simp [fetchGo]
  | cons a rest ih =>
    intro g
    simp only [fetchGo]
    cases outcome a with
    | frame rows =>
      cases rows with
      | nil => simp
      | cons r rs => simp
    | raises =>
      cases rest with
      | nil => simp
      | cons b rest2 => simpa using ih (GetFun.custom g)

theorem fetchGo_allRaise (m : Nat) :
    ∀ (l : List Nat) (g : GetFun),
      (fetchGo (fun _ => DownloadOutcome.raises) m g l).result = none
    ∧ (fetchGo (fun _ => DownloadOutcome.raises) m g l).attempts = l.length
    ∧ (fetchGo (fun _ => DownloadOutcome.raises) m g l).sleeps
        = l.dropLast.map (fun a => backoffDelay a m) := by
  intro l
  induction l with
  | nil => intro g; simp [fetchGo]
  | cons a rest ih =>
    intro g
    cases rest with
    | nil => simp [fetchGo]
    | cons b rest2 =>
      have h := ih (GetFun.custom g)
      refine ⟨?_, ?_, ?_⟩
      · simpa [fetchGo] using h.1
      · simpa [fetchGo] using h.2.1
      · simpa [fetchGo, List.dropLast] using h.2.2

theorem range_dropLast (r : Nat) :
    (List.range r).dropLast = List.range (r - 1) := by
  cases r with
  | zero => rfl
  | succ k =>
    rw [List.range_succ]
    simp

/-! Claim theorems about `fetch_data`. -/

/-- Claim C1 (code bug): the spec requires the temporary substitution of
`yf.utils.get` to be restored even when the download raises, but
`fetch_data` has no `try/finally`: a run whose attempts all raise, and
even a run that raises once and then succeeds, leave the wrapper
permanently installed (`finalGet ≠ .original`). -/
theorem c1_fetch_data_leaves_custom_get_installed :
    (fetch_data true (fun _ => DownloadOutcome.raises) 3 10 .original).finalGet
      ≠ GetFun.original
  ∧ (fetch_data true (fun a => if a = 0 then DownloadOutcome.raises
        else DownloadOutcome.frame [5]) 3 10 .original).result = some [5]
  ∧ (fetch_data true (fun a => if a = 0 then DownloadOutcome.raises
        else DownloadOutcome.frame [5]) 3 10 .original).finalGet
      ≠ GetFun.original := by
  decide

/-- Claim C2, counterexample: the "no data" outcome (an explicitly empty
frame on the first attempt) and the "exhausted-failure" outcome (every
attempt raises) are both returned to the caller as the same value `None`,
so the three outcomes are not mutually distinguishable as the claim
states. -/
theorem c2_no_data_and_exhausted_conflated :
    (fetch_data true (fun _ => DownloadOutcome.frame []) 3 10 .original).result
      = (fetch_data true (fun _ => DownloadOutcome.raises) 3 10 .original).result
  ∧ (fetch_data true (fun _ => DownloadOutcome.frame []) 3 10 .original).result
      = none := by
  decide

/-- Claim C2, amended: `fetch_data` terminates after at most `retries`
attempts; a successful return is never an empty frame; an explicitly
empty first result returns `None` immediately with no retry and no sleep;
and when every attempt raises the result is `None` — the same caller
value as the empty-data outcome. -/
theorem c2_fetch_data_outcomes (outcome : Nat → DownloadOutcome)
    (retries maxDelay : Nat) (g0 : GetFun) (h : 0 < retries) :
    (fetch_data true outcome retries maxDelay g0).attempts ≤ retries
  ∧ (fetch_data true outcome retries maxDelay g0).result ≠ some []
  ∧ fetch_data true (fun a => if a = 0 then DownloadOutcome.frame [] else outcome a)
      retries maxDelay g0 = ⟨none, g0, 1, []⟩
  ∧ (fetch_data true (fun _ => DownloadOutcome.raises) retries maxDelay g0).result
      = none := by
  refine ⟨?_, ?_, ?_, ?_⟩
  · simpa [fetch_data] using
      fetchGo_attempts_le outcome maxDelay (List.range retries) g0
  · simpa [fetch_data] using
      fetchGo_result_ne_nil outcome maxDelay (List.range retries) g0
  · obtain ⟨k, rfl⟩ := Nat.exists_eq_add_of_lt h
    rw [fetch_data]
    rw [List.range_succ_eq_map]
    simp [fetchGo]
  · simpa [fetch_data] using
      (fetchGo_allRaise maxDelay (List.range retries) g0).1

/-- Claim C2, witness. -/
theorem c2_fetch_data_outcomes_witness :
    (fetch_data true (fun _ => DownloadOutcome.raises) 3 10 .original).attempts ≤ 3
  ∧ (fetch_data true (fun _ => DownloadOutcome.raises) 3 10 .original).result ≠ some []
  ∧ fetch_data true (fun a => if a = 0 then DownloadOutcome.frame []
      else (fun _ => DownloadOutcome.raises) a) 3 10 .original = ⟨none, .original, 1, []⟩
  ∧ (fetch_data true (fun _ => DownloadOutcome.raises) 3 10 .original).result = none :=
  c2_fetch_data_outcomes (fun _ => DownloadOutcome.raises) 3 10 .original (by decide)

/-- Claim C3: with `retries = 3` and `max_delay = 10`, if every download
attempt raises, `fetch_data` makes exactly 3 attempts, sleeps 1 second
after attempt 0 and 2 seconds after attempt 1 and nothing after the last
attempt, and returns the exhausted-failure value `None`. -/
theorem c3_three_failures_trace (outcome : Nat → DownloadOutcome)
    (h : ∀ a, outcome a = DownloadOutcome.raises) (g0 : GetFun) :
    (fetch_data true outcome 3 10 g0).attempts = 3
  ∧ (fetch_data true outcome 3 10 g0).sleeps = [1, 2]
  ∧ (fetch_data true outcome 3 10 g0).result = none := by
  have ho : outcome = fun _ => DownloadOutcome.raises := funext h
  subst ho
  have h3 := fetchGo_allRaise 10 (List.range 3) g0
  refine ⟨?_, ?_, ?_⟩
  · simpa [fetch_data] using h3.2.1
  · rw [fetch_data]
    simp only [Bool.true_eq_false, if_false]
    rw [h3.2.2]
    decide
  · simpa [fetch_data] using h3.1

/-- Claim C3, witness. -/
theorem c3_three_failures_trace_witness :
    (fetch_data true (fun _ => DownloadOutcome.raises) 3 10 .original).attempts = 3
  ∧ (fetch_data true (fun _ => DownloadOutcome.raises) 3 10 .original).sleeps = [1, 2]
  ∧ (fetch_data true (fun _ => DownloadOutcome.raises) 3 10 .original).result = none :=
  c3_three_failures_trace (fun _ => DownloadOutcome.raises) (fun _ => rfl) .original

/-- Claim C4: the back-off delay computed before a retry is
`min(2 ** attempt, max_delay)`; for attempt index 0 and any positive
ceiling it is 1; and in a run whose attempts all raise, the sleeps
performed are exactly the delays for attempts `0 .. retries - 2`. -/
theorem c4_backoff_formula (m : Nat) (h : 0 < m) :
    backoffDelay 0 m = 1
  ∧ (∀ a, backoffDelay a m = min (2 ^ a) m)
  ∧ (∀ r g0, (fetch_data true (fun _ => DownloadOutcome.raises) r m g0).sleeps
      = (List.range (r - 1)).map (fun a => backoffDelay a m)) := by
  refine ⟨?_, fun a => rfl, fun r g0 => ?_⟩
  · have : min 1 m = 1 := Nat.min_eq_left h
    simpa [backoffDelay] using this
  · rw [fetch_data]
    simp only [Bool.true_eq_false, if_false]
    rw [(fetchGo_allRaise m (List.range r) g0).2.2, range_dropLast]

/-- Claim C4, witness. -/
theorem c4_backoff_formula_witness :
    backoffDelay 0 10 = 1
  ∧ backoffDelay 2 10 = min (2 ^ 2) 10
  ∧ (fetch_data true (fun _ => DownloadOutcome.raises) 3 10 .original).sleeps
      = (List.range 2).map (fun a => backoffDelay a 10) :=
  ⟨(c4_backoff_formula 10 (by decide)).1,
   (c4_backoff_formula 10 (by decide)).2.1 2,
   (c4_backoff_formula 10 (by decide)).2.2 3 .original⟩

/-- Claim C10: when the provider handle is `None` (import and fallback
install both failed), `fetch_data` returns `None` immediately: zero
download attempts, zero sleeps, and the `yf.utils.get` state untouched. -/
theorem c10_unavailable_provider (outcome : Nat → DownloadOutcome)
    (retries maxDelay : Nat) (g0 : GetFun) :
    fetch_data false outcome retries maxDelay g0 = ⟨none, g0, 0, []⟩ :=
  rfl

/-! Claim theorems about the consistency checker. -/

/-- Claim C5: with the anchor `openbb` installed at version `v`, the
checker reports "mismatched" exactly when `v` starts with `'4.'` and the
`openbb-core` version (or the placeholder `'未知'` when absent) does not
start with `'1.'`; any other anchor major version yields "compatible" by
default. -/
theorem c5_mismatch_rule (installed : List (String × String)) (v : String)
    (h : List.lookup "openbb" installed = some v) :
    (verdictOf installed = Verdict.mismatched
      ↔ (strStartsWith v "4." = true
         ∧ strStartsWith ((List.lookup "openbb-core" installed).getD "未知") "1."
             = false))
  ∧ (strStartsWith v "4." = false → verdictOf installed = Verdict.compatible) := by
  by_cases hc :
      (strStartsWith v "4."
        && !strStartsWith ((List.lookup "openbb-core" installed).getD "未知") "1.")
      = true
  · have hs := hc
    rw [Bool.and_eq_true, Bool.not_eq_true'] at hs
    constructor
    · simp [verdictOf, check_installed_packages, h, hc, hs.1, hs.2]
    · intro hv
      rw [hv] at hs
      exact absurd hs.1 (by simp)
  · have hs := hc
    rw [Bool.and_eq_true, Bool.not_eq_true'] at hs
    push_neg at hs
    constructor
    · simp only [verdictOf, check_installed_packages, h]
      rw [if_neg hc]
      simp only [h]
      constructor
      · intro hcon
        simp at hcon
      · rintro ⟨h4, h1⟩
        exact absurd (hs h4) (by simp [h1])
    · intro hv
      simp [verdictOf, check_installed_packages, h, hc]

/-- Claim C5, witness. -/
theorem c5_mismatch_rule_witness :
    (verdictOf [("openbb", "4.4.0"), ("openbb-core", "0.9.0")] = Verdict.mismatched
      ↔ (strStartsWith "4.4.0" "4." = true
         ∧ strStartsWith
             ((List.lookup "openbb-core"
                [("openbb", "4.4.0"), ("openbb-core", "0.9.0")]).getD "未知") "1."
             = false))
  ∧ (strStartsWith "4.4.0" "4." = false →
      verdictOf [("openbb", "4.4.0"), ("openbb-core", "0.9.0")] = Verdict.compatible) :=
  c5_mismatch_rule [("openbb", "4.4.0"), ("openbb-core", "0.9.0")] "4.4.0" (by decide)

/-- Claim C6: with the anchor `openbb` absent from the inventory, the
checker's outcome is the "not installed" verdict, its returned flag is
the non-error value `True` (the absence is visible to the caller through
the returned inventory, exactly as `main` reads it), and that verdict is
distinct from both "mismatched" and "compatible". -/
theorem c6_not_installed_verdict (installed : List (String × String))
    (h : List.lookup "openbb" installed = none) :
    verdictOf installed = Verdict.notInstalled
  ∧ (check_installed_packages installed).1 = true
  ∧ Verdict.notInstalled ≠ Verdict.mismatched
  ∧ Verdict.notInstalled ≠ Verdict.compatible := by
  refine ⟨?_, ?_, by decide, by decide⟩
  · simp [verdictOf, check_installed_packages, h]
  · simp [check_installed_packages, h]

/-- Claim C6, witness. -/
theorem c6_not_installed_verdict_witness :
    verdictOf [("openbb-core", "1.2.0")] = Verdict.notInstalled
  ∧ (check_installed_packages [("openbb-core", "1.2.0")]).1 = true
  ∧ Verdict.notInstalled ≠ Verdict.mismatched
  ∧ Verdict.notInstalled ≠ Verdict.compatible :=
  c6_not_installed_verdict [("openbb-core", "1.2.0")] (by decide)

/-! Claim theorems about the reconciliation transaction. -/

/-- Claim C7: in both `clean_install_openbb` and `reinstall_openbb`, every
component of the fixed set has its uninstall attempted no matter which
uninstalls fail (the trace always covers the whole list, in order), and
the transaction reports overall failure exactly when the single pinned
install of `openbb[all]==4.4.0` fails. -/
theorem c7_uninstall_never_aborts (w : PipWorld) :
    ((clean_install_openbb w).1.map Prod.fst = packagesToUninstall)
  ∧ ((reinstall_openbb w).1.map Prod.fst = packagesToUninstall)
  ∧ ((clean_install_openbb w).2 = false ↔ w.installRaises = true)
  ∧ ((reinstall_openbb w).2 = false ↔ w.installRaises = true) := by
  cases hw : w.installRaises <;>
    simp [clean_install_openbb, reinstall_openbb, uninstallLoop, hw,
          Function.comp_def]

/-! Helper lemmas about pip state. -/

theorem foldl_pipUninstall_apply :
    ∀ (l : List String) (s : PipState) (q : String),
      (l.foldl pipUninstall s) q = if q ∈ l then none else s q := by
  intro l
  induction l with
  | nil => intro s q; simp
  | cons p rest ih =>
    intro s q
    rw [List.foldl_cons, ih]
    by_cases hq : q = p
    · subst hq
      by_cases hr : q ∈ rest <;> simp [hr, pipUninstall]
    · by_cases hr : q ∈ rest <;> simp [hr, hq, pipUninstall]

theorem uninstallPhase_apply (s : PipState) (q : String) :
    uninstallPhase s q = if q ∈ packagesToUninstall then none else s q :=
  foldl_pipUninstall_apply packagesToUninstall s q

theorem pipInstall_congr :
    ∀ (deps : List (String × String)) (x y : PipState) (q : String),
      (x q = y q ∨ ∃ p ∈ deps, p.1 = q) →
      pipInstall deps x q = pipInstall deps y q := by
  intro deps
  induction deps with
  | nil =>
    intro x y q hq
    rcases hq with hq | ⟨p, hp, _⟩
    · exact hq
    · exact absurd hp (List.not_mem_nil p)
  | cons kv rest ih =>
    intro x y q hq
    show pipInstall rest (fun q2 => if q2 = kv.1 then some kv.2 else x q2) q
       = pipInstall rest (fun q2 => if q2 = kv.1 then some kv.2 else y q2) q
    apply ih
    by_cases hk : q = kv.1
    · left; simp [hk]
    · rcases hq with hq | ⟨p, hp, hpq⟩
      · left; simp [hk, hq]
      · rcases List.mem_cons.mp hp with rfl | hp2
        · exact absurd hpq.symm hk
        · right; exact ⟨p, hp2, hpq⟩

theorem pipInstall_not_mem :
    ∀ (deps : List (String × String)) (x : PipState) (q : String),
      (∀ p ∈ deps, p.1 ≠ q) → pipInstall deps x q = x q := by
  intro deps
  induction deps with
  | nil => intro x q _; rfl
  | cons kv rest ih =>
    intro x q hq
    show pipInstall rest (fun q2 => if q2 = kv.1 then some kv.2 else x q2) q = x q
    rw [ih _ q (fun p hp => hq p (List.mem_cons_of_mem kv hp))]
    have hne : q ≠ kv.1 := fun hk => (hq kv (List.mem_cons_self kv rest)) hk.symm
    simp [hne]

/-- Claim C8, counterexample: run the transaction from an empty
environment with target set `{openbb ↦ 4.4.0}`.  The resulting target
state has `openbb` installed, so the second run's uninstall phase removes
it — the uninstalls of a repeated run are not all no-ops ("nothing
installed to remove" fails: the pinned target itself is installed). -/
theorem c8_second_run_uninstall_not_noop :
    (openbbTransaction [("openbb", "4.4.0")] true (fun _ => none)).1 "openbb"
      = some "4.4.0"
  ∧ uninstallPhase
      (openbbTransaction [("openbb", "4.4.0")] true (fun _ => none)).1 "openbb"
      = none := by
  constructor
  · rfl
  · rfl

/-- Claim C8, amended: the transaction is idempotent in its caller-visible
outcome and final installed state — with the pinned install succeeding,
running it a second time from the first run's final state removes the
installed target components and reinstalls the identical pinned set,
ending in exactly the same state and reporting the same success; but the
second run's uninstalls of the target's own components are not no-ops. -/
theorem c8_idempotent_state_and_outcome (deps : List (String × String))
    (s : PipState) :
    (openbbTransaction deps true (openbbTransaction deps true s).1).1
      = (openbbTransaction deps true s).1
  ∧ (openbbTransaction deps true (openbbTransaction deps true s).1).2
      = (openbbTransaction deps true s).2 := by
  have h2 : ∀ t : PipState, (openbbTransaction deps true t).2 = true :=
    fun t => rfl
  refine ⟨?_, by rw [h2, h2]⟩
  show pipInstall deps (uninstallPhase (pipInstall deps (uninstallPhase s)))
      = pipInstall deps (uninstallPhase s)
  funext q
  apply pipInstall_congr
  by_cases hdep : ∃ p ∈ deps, p.1 = q
  · right; exact hdep
  · left
    push_neg at hdep
    rw [uninstallPhase_apply]
    by_cases hmem : q ∈ packagesToUninstall
    · rw [if_pos hmem, uninstallPhase_apply, if_pos hmem]
    · rw [if_neg hmem, pipInstall_not_mem deps _ q hdep]

/-! Claim theorem about the local importer. -/

/-- Whether an `Except`-modelled parse attempt succeeded. -/
def parseOk (e : Except String CsvFrame) : Bool :=
  match e with
  | .ok _ => true
  | .error _ => false

/-- The frame a successful parse attempt produced, if any. -/
def parseFrame (e : Except String CsvFrame) : Option CsvFrame :=
  match e with
  | .ok f => some f
  | .error _ => none

/-- Claim C9: for an existing file, `manual_import` always tries the
primary strategy; the secondary strategy runs exactly when the primary
raises; and when the primary succeeds, its frame is returned unchanged
with no secondary attempt. -/
theorem c9_primary_then_secondary (w : ImportWorld)
    (h : w.fileExists = true) :
    (manual_import w).primaryTried = true
  ∧ (manual_import w).secondaryTried = !parseOk w.readCsvIndexed
  ∧ (parseOk w.readCsvIndexed = true →
      manual_import w = ⟨parseFrame w.readCsvIndexed, true, false⟩) := by
  rcases w with ⟨fe, pri, sec⟩
  subst h
  cases pri with
  | ok f =>
    refine ⟨rfl, rfl, fun _ => rfl⟩
  | error e =>
    refine ⟨?_, ?_, ?_⟩
    · cases sec with
      | ok f2 =>
        by_cases hd : "Date" ∈ f2.cols <;> simp [manual_import, hd]
      | error e2 => rfl
    · cases sec with
      | ok f2 =>
        by_cases hd : "Date" ∈ f2.cols <;> simp [manual_import, parseOk, hd]
      | error e2 => rfl
    · intro hcon
      exact absurd hcon (by simp [parseOk])

/-- Claim C9, witness: a world whose primary parse succeeds. -/
theorem c9_primary_then_secondary_witness :
    (manual_import ⟨true, .ok ⟨"Date", ["Open", "Close"]⟩, .error "e"⟩).primaryTried
      = true
  ∧ (manual_import ⟨true, .ok ⟨"Date", ["Open", "Close"]⟩, .error "e"⟩).secondaryTried
      = !parseOk (Except.ok ⟨"Date", ["Open", "Close"]⟩)
  ∧ (parseOk (Except.ok (⟨"Date", ["Open", "Close"]⟩ : CsvFrame)) = true →
      manual_import ⟨true, .ok ⟨"Date", ["Open", "Close"]⟩, .error "e"⟩
        = ⟨parseFrame (Except.ok ⟨"Date", ["Open", "Close"]⟩), true, false⟩) :=
  c9_primary_then_secondary ⟨true, .ok ⟨"Date", ["Open", "Close"]⟩, .error "e"⟩ rfl
